import Mathlib

/-!
Verification development for the Media-Processor service
(`src/server.js`, `src/r2-client.js`).

The JavaScript source is shallowly embedded: byte buffers are `List Nat`,
strings are Lean `String` (or `List Char` where character-level reasoning
is needed), and the external libraries (sharp, fluent-ffmpeg, the R2 SDK)
are represented by explicit oracles recording, per call site, whether the
call succeeds and which bytes / metadata it returns.  Fallible code is
embedded in `Except`; the on-disk staging files of the video path are an
explicit `TempState` threaded through the embedding.
-/

namespace MediaProcessor

/-- Raw byte payloads (Node `Buffer`s) are modelled as lists of bytes. -/
abbrev Bytes := List Nat

/-! ## Key Namer — `generateKey` from `src/r2-client.js` lines 185-205 -/

/-- Model of JavaScript `String.prototype.split('.')` on a list of
characters: splits at every `'.'`, keeping empty segments, and returns
`[s]` when no dot occurs (and `[[]]` on the empty string), exactly as in
JS. -/
def splitOnDot : List Char → List (List Char)
  | [] => [[]]
  | c :: cs =>
    if c = '.' then [] :: splitOnDot cs
    else
      match splitOnDot cs with
      | [] => [[c]]
      | h :: t => (c :: h) :: t

/-- `filename.split('.').pop()` (line 186): the last dot-separated
segment of the filename.  `splitOnDot` never returns `[]`, so the
`getLastD` default is never used. -/
def extOf (filename : List Char) : List Char :=
  (splitOnDot filename).getLastD []

/-- `generateKey(type, userId, filename, timestamp)` from
`src/r2-client.js` lines 185-205.  The `Math.random().toString(36).substr(2, 9)`
disambiguator drawn by the call is passed in explicitly as `rand`. -/
def generateKey (ktype userId filename : List Char) (timestamp : Nat)
    (rand : List Char) : List Char :=
  let extension := extOf filename
  let uniqueId := (Nat.repr timestamp).data ++ ('-' :: rand)
  if ktype = "avatar".data then
    "avatars/user-".data ++ userId ++ ('/' :: (uniqueId ++ ('.' :: extension)))
  else if ktype = "post".data then
    "posts/post-".data ++ userId ++ ('/' :: (uniqueId ++ ('.' :: extension)))
  else if ktype = "album".data then
    "albums/album-".data ++ userId ++ ('/' :: (uniqueId ++ ('.' :: extension)))
  else if ktype = "video".data then
    "videos/post-".data ++ userId ++ ('/' :: (uniqueId ++ ('.' :: extension)))
  else if ktype = "processed".data then
    "processed/user-".data ++ userId ++ ('/' :: (uniqueId ++ ('.' :: extension)))
  else if ktype = "temp".data then
    "temp/uploads/".data ++ (uniqueId ++ ('.' :: extension))
  else
    "uploads/".data ++ ktype ++ ('/' :: (uniqueId ++ ('.' :: extension)))

/-! ## JavaScript `parseFloat` — used at `src/server.js` line 358
(`duration = parseFloat(data.duration)`)

The model covers `parseFloat` on strings without leading whitespace
(duration metadata strings have none): optional sign, integer digits,
optional fraction, optional exponent; the numeric value is kept exactly
as a rational.  `none` models the `NaN` result (no digits at all). -/

/-- Greedily consume leading decimal digits, accumulating the value in
`acc` and the number of digits consumed in `k`. -/
def readDigits : Nat → Nat → List Char → Nat × Nat × List Char
  | acc, k, [] => (acc, k, [])
  | acc, k, c :: cs =>
    if c.isDigit then readDigits (10 * acc + (c.toNat - 48)) (k + 1) cs
    else (acc, k, c :: cs)

/-- Optional leading sign; the first component records whether the
number is negated. -/
def parseSign : List Char → Bool × List Char
  | [] => (false, [])
  | c :: t => if c = '-' then (true, t) else if c = '+' then (false, t) else (false, c :: t)

/-- Optional fractional part (a `'.'` followed by digits). -/
def parseFrac (s : List Char) : Nat × Nat × List Char :=
  match s with
  | [] => (0, 0, [])
  | c :: t => if c = '.' then readDigits 0 0 t else (0, 0, c :: t)

/-- Optional exponent part; like JS, an `e` not followed by digits is
ignored.  The scaling is expressed through `mkRat` and natural-number
powers so that the value is kernel-computable. -/
def parseExp (base : ℚ) (s : List Char) : ℚ :=
  match s with
  | [] => base
  | c :: t =>
    if c = 'e' ∨ c = 'E' then
      match t with
      | [] => base
      | d :: u =>
        if d = '-' then
          let r := readDigits 0 0 u
          if r.2.1 = 0 then base else mkRat base.num (base.den * 10 ^ r.1)
        else if d = '+' then
          let r := readDigits 0 0 u
          if r.2.1 = 0 then base else mkRat (base.num * ((10 ^ r.1 : Nat) : Int)) base.den
        else
          let r := readDigits 0 0 (d :: u)
          if r.2.1 = 0 then base else mkRat (base.num * ((10 ^ r.1 : Nat) : Int)) base.den
    else base

/-- JavaScript `parseFloat`: parses the longest numeric prefix and
silently ignores everything after it; `none` is `NaN`.  The value
`ip.fp × 10^±e` is assembled with `mkRat` so it is kernel-computable. -/
def jsParseFloat (s : List Char) : Option ℚ :=
  let sg := parseSign s
  let ir := readDigits 0 0 sg.2
  let fr := parseFrac ir.2.2
  if ir.2.1 = 0 ∧ fr.2.1 = 0 then none
  else
    let base : ℚ := mkRat (ir.1 * 10 ^ fr.2.1 + fr.1) (10 ^ fr.2.1)
    let v := parseExp base fr.2.2
    some (if sg.1 then -v else v)

/-- Two-digit zero-padded decimal rendering of `n < 100`, as used in the
`HH:MM:SS.cc` timemark strings that fluent-ffmpeg surfaces in its
`codecData.duration` metadata. -/
def pad2 (n : Nat) : List Char :=
  [Char.ofNat (48 + n / 10), Char.ofNat (48 + n % 10)]

/-- A clock-format duration string `HH:MM:SS.cc` (hours, minutes,
seconds, centiseconds). -/
def clockChars (hh mm ss cc : Nat) : List Char :=
  pad2 hh ++ (':' :: (pad2 mm ++ (':' :: (pad2 ss ++ ('.' :: pad2 cc)))))

/-- The duration in seconds that a clock-format string `HH:MM:SS.cc`
denotes. -/
def clockVal (hh mm ss cc : Nat) : ℚ :=
  (3600 * hh + 60 * mm + ss : ℚ) + (cc : ℚ) / 100

/-! ## Image pipeline — `processImage` from `src/server.js` lines 268-319 -/

/-- The four image variants, in the insertion order of the `results`
object in `processImage` (JS objects preserve string-key insertion
order, so `Object.entries` iterates in this order). -/
inductive Variant
  | original
  | thumbnail
  | medium
  | large
deriving DecidableEq, Repr

/-- The string name of a variant (`size` in the JS upload loops). -/
def variantName : Variant → String
  | .original => "original"
  | .thumbnail => "thumbnail"
  | .medium => "medium"
  | .large => "large"

/-- Sharp `fit` modes used in the source. -/
inductive Fit
  | cover
  | inside
deriving DecidableEq, Repr

/-- Arguments of one `sharp(...).resize(...)` call: width/height (JS
`null` is `none`), fit mode, and `withoutEnlargement`. -/
structure SharpResize where
  width : Option Nat
  height : Option Nat
  fit : Fit
  withoutEnlargement : Bool
deriving DecidableEq, Repr

/-- One full sharp transform: the resize arguments plus the encode step
(`.jpeg({quality})` — the source always encodes derived sizes as jpeg)
applied to it. -/
structure SharpCall where
  resize : SharpResize
  codec : String
  quality : Nat
deriving DecidableEq, Repr

/-- `resize` entry of the request body (`{"width": .., "height": ..}`),
destructured at line 275. -/
structure ResizeReq where
  width : Option Nat
  height : Option Nat
  fit : Option String
deriving DecidableEq, Repr

/-- Options of `processImage` after the destructuring defaults of line
269 have been applied by the caller. -/
structure ImageOpts where
  quality : Nat
  format : String
  resize : Option ResizeReq
deriving DecidableEq, Repr

/-- Outcomes of the three sharp transform invocations of `processImage`
(the external sharp library): `none` means the corresponding awaited
promise rejects, `some b` means it resolves with output bytes `b`.  The
`original` entry is a pass-through of the input buffer and involves no
transform. -/
structure ImageOracle where
  thumbnail : Option Bytes
  medium : Option Bytes
  large : Option Bytes
deriving DecidableEq, Repr

/-- Error classification of the throw sites of the embedded code.  The
JS source throws plain `Error`s distinguishable only by message; the
constructors tag the throw site. -/
inductive PErr
  | transformFailed (v : Variant)
  | storageFailed (label : String)
  | videoTransformFailed
deriving DecidableEq, Repr

/-- `error.message` of the corresponding JS exception (representative
stand-in for the opaque library message text). -/
def errMessage : PErr → String
  | .transformFailed v => "Transform failed: " ++ variantName v
  | .storageFailed label => "Failed to upload file: " ++ label
  | .videoTransformFailed => "ffmpeg exited with an error"

/-- `processImage(buffer, options)` (lines 268-319).  The code builds a
(dead) `sharpInstance` carrying the profile resize override (lines
271-279) which no output ever uses; sets `results.original = buffer`
(281-283); then sequentially awaits the thumbnail (300×300 cover,
jpeg), medium (width 800, inside, no enlargement, jpeg) and large
(width 1200, inside, no enlargement, jpeg) transforms, each started
from the *original* `buffer`.  A rejection at any await propagates out
of `processImage` at once.  The first component is the function's
result: on success, the `Object.entries` list of
`(variant, sharp call performed, bytes)` in insertion order.  The
second component records which transforms were invoked before the call
returned (later transforms of the sequence are never started after a
rejection). -/
def processImage (buffer : Bytes) (opts : ImageOpts) (orc : ImageOracle) :
    Except PErr (List (Variant × Option SharpCall × Bytes)) × List Variant :=
  let thumbSpec : SharpCall := ⟨⟨some 300, some 300, Fit.cover, false⟩, "jpeg", opts.quality⟩
  let medSpec : SharpCall := ⟨⟨some 800, none, Fit.inside, true⟩, "jpeg", opts.quality⟩
  let lrgSpec : SharpCall := ⟨⟨some 1200, none, Fit.inside, true⟩, "jpeg", opts.quality⟩
  match orc.thumbnail with
  | none => (Except.error (PErr.transformFailed Variant.thumbnail), [Variant.thumbnail])
  | some tb =>
    match orc.medium with
    | none =>
      (Except.error (PErr.transformFailed Variant.medium),
       [Variant.thumbnail, Variant.medium])
    | some mb =>
      match orc.large with
      | none =>
        (Except.error (PErr.transformFailed Variant.large),
         [Variant.thumbnail, Variant.medium, Variant.large])
      | some lb =>
        (Except.ok
          [(Variant.original, none, buffer),
           (Variant.thumbnail, some thumbSpec, tb),
           (Variant.medium, some medSpec, mb),
           (Variant.large, some lrgSpec, lb)],
         [Variant.thumbnail, Variant.medium, Variant.large])

/-! ## Video pipeline — `processVideo` (lines 321-375),
`processVideoFile` (lines 408-455), `cleanupTempFiles` (lines 466-474) -/

/-- Outcomes of the external ffmpeg invocation and the two R2 uploads of
one video file: whether the ffmpeg command ends successfully (a failed
thumbnail screenshot fails the same command), the `data.duration`
string surfaced by the `codecData` event (`none` if the event never
fires), and whether each `uploadFile` call succeeds. -/
structure VideoOracle where
  transcodeOk : Bool
  codecDuration : Option String
  uploadVideoOk : Bool
  uploadThumbOk : Bool
deriving DecidableEq, Repr

/-- Options of `processVideo` before the destructuring defaults of line
322 are applied (`none` = property absent from the options object). -/
structure VideoOpts where
  quality : Option String
  format : Option String
  generateThumbnail : Option Bool
  thumbnailPath : Option String
deriving DecidableEq, Repr

/-- Codec/bitrate configuration applied to the ffmpeg command. -/
structure VideoSpec where
  videoCodec : String
  videoBitrate : String
  audioCodec : String
  audioBitrate : String
deriving DecidableEq, Repr

/-- The quality-preset `switch` of lines 328-340 plus the fixed audio
codec/bitrate of line 343. -/
def presetSpec (q : String) : VideoSpec :=
  if q = "low" then ⟨"libx264", "500k", "aac", "128k"⟩
  else if q = "medium" then ⟨"libx264", "1000k", "aac", "128k"⟩
  else if q = "high" then ⟨"libx264", "2000k", "aac", "128k"⟩
  else ⟨"libx264", "1000k", "aac", "128k"⟩

/-- The value `processVideo`'s promise resolves with (line 365), plus
the configuration the command ran with. -/
structure VideoOut where
  duration : Option ℚ
  thumbnail : Option String
  spec : VideoSpec
  screenshotRequested : Bool
deriving DecidableEq, Repr

/-- `processVideo(inputPath, outputPath, options)` (lines 321-375):
applies the destructuring defaults (`quality='medium'`, `format='mp4'`,
`generateThumbnail=true`), selects the preset, requests a screenshot at
the 50% timestamp when `generateThumbnail && thumbnailPath`, captures
`duration = parseFloat(data.duration)` from the `codecData` event
(line 358; `none` conflates the never-fired event's `null` with a `NaN`
parse), and resolves `{duration, thumbnail: generateThumbnail ?
thumbnailPath : null}` on `end`, rejecting on `error`. -/
def processVideo (orc : VideoOracle) (opts : VideoOpts) : Except PErr VideoOut :=
  let q := opts.quality.getD "medium"
  let spec := presetSpec q
  let gt := opts.generateThumbnail.getD true
  let shot := gt && opts.thumbnailPath.isSome
  if orc.transcodeOk then
    Except.ok
      ⟨orc.codecDuration.bind (fun s => jsParseFloat s.data),
       if gt then opts.thumbnailPath else none,
       spec, shot⟩
  else Except.error PErr.videoTransformFailed

/-- Which of the three staging files of one video job currently exist in
the `temp` directory: the written input copy, ffmpeg's transcode
output, and the captured thumbnail frame. -/
structure TempState where
  inputExists : Bool
  outputExists : Bool
  thumbExists : Bool
deriving DecidableEq, Repr

/-- `cleanupTempFiles(filePaths)` (lines 466-474): unlinks each of the
three staging files, swallowing any per-file unlink error. -/
def cleanupTempFiles (_ : TempState) : TempState := ⟨false, false, false⟩

/-! ## Per-file processing — `processImageFile` (lines 377-406),
`processVideoFile` (lines 408-455), and the `/batch-process` loop body
(lines 213-245) -/

/-- One file of a multer upload, bundled with the environment's
responses for the external calls its processing performs: the sharp
transform outcomes, the ffmpeg/upload outcomes of the video path, the
per-variant image upload outcomes, and the `Date.now()` / successive
`Math.random()` draws consumed by `generateKey` (indexed by call order
within this file's processing). -/
structure FileReq where
  originalname : String
  mimetype : String
  buffer : Bytes
  imgOracle : ImageOracle
  vidOracle : VideoOracle
  uploadOk : Variant → Bool
  ts : Nat
  rands : Nat → String

/-- `isImage(mimetype)` (lines 458-460). -/
def isImage (m : String) : Bool :=
  ["image/jpeg", "image/png", "image/gif", "image/webp"].contains m

/-- `isVideo(mimetype)` (lines 462-464). -/
def isVideo (m : String) : Bool :=
  ["video/mp4", "video/webm", "video/ogg", "video/avi", "video/mov"].contains m

/-- The upload loop of `processImageFile` (lines 383-398): for each
`[size, imageBuffer]` of `Object.entries(processedImages)` in order,
builds the key `generateKey('processed', userId, size + '_' +
originalname, timestamp)` and awaits `uploadFile`; a rejected upload
propagates immediately, so later uploads of the sequence never run.
`idx` numbers the `generateKey` calls for the random draws.  The second
component records, in order, the variants whose `uploadFile` call was
invoked before the loop returned (a rejected upload is the last entry;
siblings after it are never attempted). -/
def uploadImages (f : FileReq) (uid : String) :
    List (Variant × Option SharpCall × Bytes) → Nat →
    Except PErr (List (Variant × List Char)) × List Variant
  | [], _ => (Except.ok [], [])
  | (v, _, _) :: rest, idx =>
    if f.uploadOk v then
      match uploadImages f uid rest (idx + 1) with
      | (Except.ok tl, trace) =>
        (Except.ok
          ((v, generateKey "processed".data uid.data
              (variantName v ++ "_" ++ f.originalname).data f.ts (f.rands idx).data) :: tl),
         v :: trace)
      | (Except.error e, trace) => (Except.error e, v :: trace)
    else
      (Except.error (PErr.storageFailed (variantName v ++ "_" ++ f.originalname)), [v])

/-- Data of a successful image file: the processed derivatives and the
`(size, key)` upload results, both in variant order. -/
structure ImageData where
  derivs : List (Variant × Option SharpCall × Bytes)
  uploads : List (Variant × List Char)
deriving DecidableEq, Repr

/-- `processImageFile(file, userId)` (lines 377-406): calls
`processImage(file.buffer)` with an *empty* options object, so the
destructuring defaults quality 85 / format `jpeg` / no resize apply,
then runs the upload loop. -/
def processImageFile (f : FileReq) (uid : String) : Except PErr ImageData :=
  match processImage f.buffer ⟨85, "jpeg", none⟩ f.imgOracle with
  | (Except.error e, _) => Except.error e
  | (Except.ok derivs, _) =>
    match (uploadImages f uid derivs 0).1 with
    | Except.ok ups => Except.ok ⟨derivs, ups⟩
    | Except.error e => Except.error e

/-- Data of a successful video file (the object returned at lines
448-454, extended with the configuration the job ran with). -/
structure VideoData where
  videoKey : List Char
  thumbKey : List Char
  duration : Option ℚ
  spec : VideoSpec
  outFormat : String
  thumbRequested : Bool
deriving DecidableEq, Repr

/-- `processVideoFile(file, userId)` (lines 408-455), with the staging
files of the `temp` directory tracked explicitly.  The input copy is
written first (line 416); a successful ffmpeg run creates the transcode
output and the screenshot; the processed video and then the thumbnail
are uploaded; `cleanupTempFiles` runs *only after both uploads*
(line 446) — there is no try/finally, so a rejection anywhere earlier
returns with the staging files still present.  The second component is
the set of staging files existing when the call returns. -/
def processVideoFile (f : FileReq) (uid : String) :
    Except PErr VideoData × TempState :=
  let afterWrite : TempState := ⟨true, false, false⟩
  match processVideo f.vidOracle ⟨none, none, some true, some "temp/thumbnail.jpg"⟩ with
  | Except.error e => (Except.error e, afterWrite)
  | Except.ok pv =>
    let afterTranscode : TempState := ⟨true, true, true⟩
    if f.vidOracle.uploadVideoOk then
      if f.vidOracle.uploadThumbOk then
        (Except.ok
          ⟨generateKey "processed".data uid.data
             ("processed_" ++ f.originalname).data f.ts (f.rands 0).data,
           generateKey "processed".data uid.data
             ("thumbnail_" ++ f.originalname).data f.ts (f.rands 1).data,
           pv.duration, pv.spec, "mp4", pv.screenshotRequested⟩,
         cleanupTempFiles afterTranscode)
      else
        (Except.error (PErr.storageFailed ("thumbnail_" ++ f.originalname)),
         afterTranscode)
    else
      (Except.error (PErr.storageFailed ("processed_" ++ f.originalname)),
       afterTranscode)

/-- The `data` payload of one entry of the batch `results` array. -/
inductive FOData
  | image (d : ImageData)
  | video (d : VideoData)
deriving DecidableEq, Repr

/-- One entry of the `results` array of `/batch-process` (its shape at
lines 217-243): the unsupported-type and caught-error entries carry no
`type` and no `data`. -/
structure FileOutcome where
  originalName : String
  ftype : Option String
  success : Bool
  data : Option FOData
  error : Option String
deriving DecidableEq, Repr

/-- The loop body of `/batch-process` (lines 213-245): dispatch on the
MIME kind, wrap the per-file processing in try/catch, and push exactly
one result per file. -/
def processFile (f : FileReq) (uid : String) : FileOutcome :=
  if isImage f.mimetype then
    match processImageFile f uid with
    | Except.ok d => ⟨f.originalname, some "image", true, some (FOData.image d), none⟩
    | Except.error e => ⟨f.originalname, none, false, none, some (errMessage e)⟩
  else if isVideo f.mimetype then
    match (processVideoFile f uid).1 with
    | Except.ok d => ⟨f.originalname, some "video", true, some (FOData.video d), none⟩
    | Except.error e => ⟨f.originalname, none, false, none, some (errMessage e)⟩
  else ⟨f.originalname, none, false, none, some "Unsupported file type"⟩

/-- The response payload of `/batch-process` (lines 247-256). -/
structure BatchOutcome where
  total : Nat
  successful : Nat
  failed : Nat
  results : List FileOutcome
deriving DecidableEq, Repr

/-- The `/batch-process` handler core (lines 204-265): one sequential
pass over `req.files`, then counts by filtering on `success`. -/
def batchProcess (files : List FileReq) (uid : String) : BatchOutcome :=
  let results := files.map (fun f => processFile f uid)
  ⟨files.length,
   (results.filter (fun r => r.success)).length,
   (results.filter (fun r => !r.success)).length,
   results⟩

/-- The caller-supplied profile fields a request body may carry. -/
structure CallerProfile where
  quality : Option String
  format : Option String
  resize : Option String
  generateThumbnail : Option Bool
deriving DecidableEq, Repr

/-- The `/batch-process` handler including its request body: the
handler reads only `req.files` and `req.user` — `_body` is present in
the request but never consulted (no line of the handler touches
`req.body`). -/
def batchEndpoint (files : List FileReq) (uid : String) (_body : CallerProfile) :
    BatchOutcome :=
  batchProcess files uid

/-! ## Concrete fixtures (environments and files used to evaluate the
embedding on closed inputs) -/

/-- An environment in which every sharp transform succeeds. -/
def imgOracleAllOk : ImageOracle := ⟨some [10, 11], some [20, 21], some [30, 31]⟩

/-- An environment in which the thumbnail transform rejects. -/
def imgOracleThumbFail : ImageOracle := ⟨none, some [20, 21], some [30, 31]⟩

/-- An environment in which the whole video path succeeds. -/
def vidOracleAllOk : VideoOracle := ⟨true, some "00:00:05.00", true, true⟩

/-- An environment in which the ffmpeg transcode rejects. -/
def vidOracleTransFail : VideoOracle := ⟨false, none, true, true⟩

/-- An environment in which the processed-video upload rejects. -/
def vidOracleUploadFail : VideoOracle := ⟨true, some "00:00:05.00", false, true⟩

/-- An environment in which only the video-thumbnail upload rejects. -/
def vidOracleThumbUploadFail : VideoOracle := ⟨true, some "00:00:10.00", true, false⟩

/-- A file request with all uploads succeeding and fixed
timestamp/random draws. -/
def mkFileReq (name mime : String) (buf : Bytes) (io : ImageOracle)
    (vo : VideoOracle) : FileReq :=
  ⟨name, mime, buf, io, vo, fun _ => true, 111, fun _ => "abc123xyz"⟩

def fImgOk : FileReq := mkFileReq "photo.jpg" "image/jpeg" [1, 2, 3] imgOracleAllOk vidOracleAllOk

def fImgThumbFail : FileReq :=
  mkFileReq "photo.jpg" "image/jpeg" [1, 2, 3] imgOracleThumbFail vidOracleAllOk

/-- An image file whose transforms all succeed but whose first upload
(the `original` entry) rejects. -/
def fImgUploadOrigFail : FileReq :=
  ⟨"photo.jpg", "image/jpeg", [1, 2, 3], imgOracleAllOk, vidOracleAllOk,
   fun v => match v with | Variant.original => false | _ => true,
   111, fun _ => "abc123xyz"⟩

def fBadMime : FileReq := mkFileReq "doc.pdf" "application/pdf" [9] imgOracleAllOk vidOracleAllOk

def fVidOk : FileReq := mkFileReq "clip.mp4" "video/mp4" [5, 6] imgOracleAllOk vidOracleAllOk

def fVidTransFail : FileReq :=
  mkFileReq "clip.mov" "video/mov" [5, 6] imgOracleAllOk vidOracleTransFail

def fVidUploadFail : FileReq :=
  mkFileReq "clip.mp4" "video/mp4" [5, 6] imgOracleAllOk vidOracleUploadFail

def fVidThumbUploadFail : FileReq :=
  mkFileReq "clip2.mp4" "video/mp4" [5, 6] imgOracleAllOk vidOracleThumbUploadFail

def profileA : CallerProfile := ⟨some "10", some "png", some "resize", some false⟩

def profileB : CallerProfile := ⟨none, none, none, none⟩

/-- The derivative list `processImage` produces for buffer `[1,2,3]`
under `imgOracleAllOk` with the default options. -/
def imgResOk : List (Variant × Option SharpCall × Bytes) :=
  [(Variant.original, none, [1, 2, 3]),
   (Variant.thumbnail, some ⟨⟨some 300, some 300, Fit.cover, false⟩, "jpeg", 85⟩, [10, 11]),
   (Variant.medium, some ⟨⟨some 800, none, Fit.inside, true⟩, "jpeg", 85⟩, [20, 21]),
   (Variant.large, some ⟨⟨some 1200, none, Fit.inside, true⟩, "jpeg", 85⟩, [30, 31])]

/-- The `ImageData` of `fImgOk` processed for user `u1`. -/
def fImgOkData : ImageData :=
  match processImageFile fImgOk "u1" with
  | Except.ok d => d
  | Except.error _ => ⟨[], []⟩

/-- The `VideoData` of `fVidOk` processed for user `u1`. -/
def fVidOkData : VideoData :=
  match (processVideoFile fVidOk "u1").1 with
  | Except.ok d => d
  | Except.error _ => ⟨[], [], none, ⟨"", "", "", ""⟩, "", false⟩

/-- An environment whose ffmpeg `codecData` event surfaces the
clock-format duration `02:03:04.05`. -/
def vidOracleClock : VideoOracle :=
  ⟨true, some (String.mk (clockChars 2 3 4 5)), true, true⟩

/-- The options `processVideoFile` passes to `processVideo`. -/
def batchVideoOpts : VideoOpts := ⟨none, none, some true, some "temp/thumbnail.jpg"⟩

/-- The `VideoOut` of a transcode under `vidOracleClock`. -/
def vidOutClock : VideoOut :=
  match processVideo vidOracleClock batchVideoOpts with
  | Except.ok o => o
  | Except.error _ => ⟨none, none, ⟨"", "", "", ""⟩, false⟩

/-! ## Helper lemmas -/

/-- Inversion for `processImage`: a successful call determines the
derivative list completely (and forces all three transforms to have
succeeded). -/
lemma processImage_ok_eq (b : Bytes) (opts : ImageOpts) (orc : ImageOracle)
    (res : List (Variant × Option SharpCall × Bytes)) (tr : List Variant)
    (h : processImage b opts orc = (Except.ok res, tr)) :
    ∃ tb mb lb, orc.thumbnail = some tb ∧ orc.medium = some mb ∧ orc.large = some lb ∧
      res = [(Variant.original, none, b),
             (Variant.thumbnail, some ⟨⟨some 300, some 300, Fit.cover, false⟩, "jpeg", opts.quality⟩, tb),
             (Variant.medium, some ⟨⟨some 800, none, Fit.inside, true⟩, "jpeg", opts.quality⟩, mb),
             (Variant.large, some ⟨⟨some 1200, none, Fit.inside, true⟩, "jpeg", opts.quality⟩, lb)] := by
  unfold processImage at h
  rcases hth : orc.thumbnail with _ | tb <;> rw [hth] at h
  · simp at h
  · rcases hmd : orc.medium with _ | mb <;> rw [hmd] at h
    · simp at h
    · rcases hlg : orc.large with _ | lb <;> rw [hlg] at h
      · simp at h
      · injection h with h1 h2
        injection h1 with h1
        exact ⟨tb, mb, lb, rfl, rfl, rfl, h1.symm⟩

/-- A suffix of `u` is a suffix of `t ++ u`. -/
lemma suffix_append_right {α : Type} (s u t : List α) (h : s <:+ u) :
    s <:+ t ++ u := by
  obtain ⟨w, rfl⟩ := h
  exact ⟨t ++ w, by rw [List.append_assoc]⟩

/-- A suffix of `u` is a suffix of `c :: u`. -/
lemma suffix_cons_right {α : Type} (c : α) (s u : List α) (h : s <:+ u) :
    s <:+ c :: u := by
  obtain ⟨w, rfl⟩ := h
  exact ⟨c :: w, rfl⟩

/-- `split('.')` on a dot-free string returns the whole string as its
single segment. -/
lemma splitOnDot_no_dot (cs : List Char) (h : '.' ∉ cs) : splitOnDot cs = [cs] := by
  induction cs with
  | nil => rfl
  | cons c cs ih =>
    have hc : ¬(c = '.') := by
      intro e
      exact h (e ▸ List.mem_cons_self c cs)
    have h' : '.' ∉ cs := fun m => h (List.mem_cons_of_mem c m)
    simp [splitOnDot, hc, ih h']

/-- The lengths of a filter and of its complement add up to the list
length. -/
lemma length_filter_add_length_filter_not {α : Type} (p : α → Bool) (l : List α) :
    (l.filter p).length + (l.filter (fun a => !p a)).length = l.length := by
  induction l with
  | nil => rfl
  | cons a l ih =>
    cases ha : p a <;> simp [List.filter_cons, ha] <;> omega

/-- Inversion for `processImageFile`: a successful call was made with
the default options (quality 85, jpeg, no resize), so its derivative
list is fully determined. -/
lemma processImageFile_ok_derivs (f : FileReq) (uid : String) (d : ImageData)
    (h : processImageFile f uid = Except.ok d) :
    ∃ tb mb lb ups,
      d = ⟨[(Variant.original, none, f.buffer),
            (Variant.thumbnail, some ⟨⟨some 300, some 300, Fit.cover, false⟩, "jpeg", 85⟩, tb),
            (Variant.medium, some ⟨⟨some 800, none, Fit.inside, true⟩, "jpeg", 85⟩, mb),
            (Variant.large, some ⟨⟨some 1200, none, Fit.inside, true⟩, "jpeg", 85⟩, lb)],
           ups⟩ := by
  unfold processImageFile at h
  split at h
  · exact absurd h (by simp)
  · next derivs snd heq =>
    split at h
    · next ups hu =>
      obtain ⟨tb, mb, lb, -, -, -, rfl⟩ := processImage_ok_eq _ _ _ _ _ heq
      injection h with h
      exact ⟨tb, mb, lb, ups, h.symm⟩
    · exact absurd h (by simp)

/-- The medium preset resolves to libx264 at 1000k with aac audio. -/
lemma presetSpec_medium : presetSpec "medium" = ⟨"libx264", "1000k", "aac", "128k"⟩ := by
  decide

/-- Inversion for `processVideoFile`: a successful call ran with the
medium preset, an `.mp4` output path, and the screenshot requested. -/
lemma processVideoFile_ok_fields (f : FileReq) (uid : String) (d : VideoData)
    (h : (processVideoFile f uid).1 = Except.ok d) :
    d.spec = presetSpec "medium" ∧ d.outFormat = "mp4" ∧ d.thumbRequested = true := by
  cases htr : f.vidOracle.transcodeOk
  · simp [processVideoFile, processVideo, htr] at h
  · cases hv : f.vidOracle.uploadVideoOk
    · simp [processVideoFile, processVideo, htr, hv] at h
    · cases ht : f.vidOracle.uploadThumbOk
      · simp [processVideoFile, processVideo, htr, hv, ht] at h
      · simp [processVideoFile, processVideo, htr, hv, ht] at h
        rw [← h]
        exact ⟨rfl, rfl, rfl⟩

/-- The two characters rendering a decimal digit position: digit-class
facts needed to drive the parser through `pad2`. -/
lemma digitChar_facts (a : Nat) (h : a ≤ 9) :
    (Char.ofNat (48 + a)).isDigit = true ∧ (Char.ofNat (48 + a)).toNat = 48 + a ∧
    ¬(Char.ofNat (48 + a) = '-') ∧ ¬(Char.ofNat (48 + a) = '+') := by
  interval_cases a <;> decide

/-- `readDigits` stops at a non-digit head. -/
lemma readDigits_stop (acc k : Nat) (c : Char) (cs : List Char)
    (h : c.isDigit = false) :
    readDigits acc k (c :: cs) = (acc, k, c :: cs) := by
  simp [readDigits, h]

/-- `readDigits` consumes a two-digit zero-padded number entirely. -/
lemma readDigits_pad2 (n : Nat) (hn : n < 100) (acc k : Nat) (rest : List Char) :
    readDigits acc k (pad2 n ++ rest) = readDigits (100 * acc + n) (k + 2) rest := by
  have h1 : n / 10 ≤ 9 := by omega
  have h2 : n % 10 ≤ 9 := by omega
  obtain ⟨d1, t1, -, -⟩ := digitChar_facts (n / 10) h1
  obtain ⟨d2, t2, -, -⟩ := digitChar_facts (n % 10) h2
  show readDigits acc k
      (Char.ofNat (48 + n / 10) :: Char.ofNat (48 + n % 10) :: rest) = _
  simp only [readDigits, d1, t1, d2, t2, if_true]
  have harith : 10 * (10 * acc + (48 + n / 10 - 48)) + (48 + n % 10 - 48) =
      100 * acc + n := by omega
  rw [harith]

/-- `parseFloat` applied to a two-digit number followed by a colon
returns just that number: everything after the colon is discarded. -/
lemma jsParseFloat_twoDigit_colon (n : Nat) (hn : n < 100) (rest : List Char) :
    jsParseFloat (pad2 n ++ (':' :: rest)) = some (n : ℚ) := by
  have h1 : n / 10 ≤ 9 := by omega
  obtain ⟨-, -, m1, p1⟩ := digitChar_facts (n / 10) h1
  have hsign : parseSign (pad2 n ++ (':' :: rest)) = (false, pad2 n ++ (':' :: rest)) := by
    show parseSign
        (Char.ofNat (48 + n / 10) :: Char.ofNat (48 + n % 10) :: ':' :: rest) = _
    simp only [parseSign]
    rw [if_neg m1, if_neg p1]
    rfl
  have hrd : readDigits 0 0 (pad2 n ++ (':' :: rest)) = (n, 2, ':' :: rest) := by
    rw [readDigits_pad2 n hn 0 0 (':' :: rest)]
    rw [readDigits_stop (100 * 0 + n) (0 + 2) ':' rest (by decide)]
    norm_num
  have hfr : parseFrac (':' :: rest) = (0, 0, ':' :: rest) := by
    simp only [parseFrac]
    rw [if_neg (by decide : ¬(':' = '.'))]
  have hexp : ∀ b : ℚ, parseExp b (':' :: rest) = b := by
    intro b
    simp only [parseExp]
    rw [if_neg (by decide : ¬(':' = 'e' ∨ ':' = 'E'))]
  simp only [jsParseFloat, hsign, hrd, hfr]
  norm_num [hexp, Rat.mkRat_eq_div]

/-! ## Claim C1 -/

/-- Claim C1 states that every staging file the video worker created no
longer exists when the call returns, on every exit path.  The code
violates this: `cleanupTempFiles` is called only after both uploads
succeed (line 446; similarly line 178 on the single path), with no
try/finally.  Evaluating the embedding: when the transcode transform
throws, the staged input file still exists on return; when an upload
fails, all three staging files still exist.  The success path does
clean all three, confirming the embedding is not rigged. -/
theorem claim_C1_staging_leak :
    (processVideoFile fVidTransFail "u1").2 = ⟨true, false, false⟩ ∧
    (processVideoFile fVidTransFail "u1").1 = Except.error PErr.videoTransformFailed ∧
    (processVideoFile fVidUploadFail "u1").2 = ⟨true, true, true⟩ ∧
    (processVideoFile fVidOk "u1").2 = ⟨false, false, false⟩ :=
  ⟨rfl, rfl, rfl, rfl⟩

/-! ## Claim C2 -/

/-- Claim C2 counterexample: with the thumbnail transform rejecting,
`processImage` aborts with an exception instead of recording a
`success=false` DerivativeResult — the sibling derivatives `medium` and
`large` are never attempted (the invocation trace is just
`[thumbnail]`), and the per-file outcome carries no per-derivative
results at all (`data = none`). -/
theorem claim_C2_counterexample :
    processImage fImgThumbFail.buffer ⟨85, "jpeg", none⟩ fImgThumbFail.imgOracle =
      (Except.error (PErr.transformFailed Variant.thumbnail), [Variant.thumbnail]) ∧
    (processFile fImgThumbFail "u1").success = false ∧
    (processFile fImgThumbFail "u1").data = none :=
  ⟨rfl, rfl, rfl⟩

/-- Claim C2 amended: a transform or upload failure of one derivative
is not mapped into a per-derivative result — the exception propagates,
sibling derivatives (transforms) and sibling uploads planned after the
failing one are never attempted, and the whole per-file call fails with
no derivative results.  Conjuncts 1-3 cover a transform failure (at
thumbnail and at medium, plus the per-file consequence); conjunct 4
shows a rejected upload stops the upload loop at exactly that variant
(the attempted-uploads trace ends there, whatever siblings follow);
conjunct 5 shows any upload failure makes the whole per-file call fail
with no derivative results. -/
theorem claim_C2_amended (buffer : Bytes) (opts : ImageOpts) (orc : ImageOracle) :
    (orc.thumbnail = none →
      processImage buffer opts orc =
        (Except.error (PErr.transformFailed Variant.thumbnail), [Variant.thumbnail])) ∧
    (∀ tb, orc.thumbnail = some tb → orc.medium = none →
      processImage buffer opts orc =
        (Except.error (PErr.transformFailed Variant.medium),
         [Variant.thumbnail, Variant.medium])) ∧
    (∀ f uid, isImage f.mimetype = true → f.imgOracle.thumbnail = none →
      (processFile f uid).success = false ∧ (processFile f uid).data = none) ∧
    (∀ (f : FileReq) (uid : String) (v : Variant) (sc : Option SharpCall) (b : Bytes)
       (rest : List (Variant × Option SharpCall × Bytes)) (idx : Nat),
      f.uploadOk v = false →
      uploadImages f uid ((v, sc, b) :: rest) idx =
        (Except.error (PErr.storageFailed (variantName v ++ "_" ++ f.originalname)), [v])) ∧
    (∀ (f : FileReq) (uid : String) (tb mb lb : Bytes),
      f.imgOracle = ⟨some tb, some mb, some lb⟩ → isImage f.mimetype = true →
      (f.uploadOk Variant.original = false ∨ f.uploadOk Variant.thumbnail = false ∨
       f.uploadOk Variant.medium = false ∨ f.uploadOk Variant.large = false) →
      (∃ e, processImageFile f uid = Except.error e) ∧
      (processFile f uid).success = false ∧ (processFile f uid).data = none) := by
  refine ⟨?_, ?_, ?_, ?_, ?_⟩
  · intro h
    simp [processImage, h]
  · intro tb h1 h2
    simp [processImage, h1, h2]
  · intro f uid h1 h2
    have him : processImage f.buffer ⟨85, "jpeg", none⟩ f.imgOracle =
        (Except.error (PErr.transformFailed Variant.thumbnail), [Variant.thumbnail]) := by
      simp [processImage, h2]
    simp [processFile, h1, processImageFile, him]
  · intro f uid v sc b rest idx h
    simp [uploadImages, h]
  · intro f uid tb mb lb horc hmime hdis
    have hpi : processImage f.buffer ⟨85, "jpeg", none⟩ f.imgOracle =
        (Except.ok
          [(Variant.original, none, f.buffer),
           (Variant.thumbnail, some ⟨⟨some 300, some 300, Fit.cover, false⟩, "jpeg", 85⟩, tb),
           (Variant.medium, some ⟨⟨some 800, none, Fit.inside, true⟩, "jpeg", 85⟩, mb),
           (Variant.large, some ⟨⟨some 1200, none, Fit.inside, true⟩, "jpeg", 85⟩, lb)],
         [Variant.thumbnail, Variant.medium, Variant.large]) := by
      simp [processImage, horc]
    have key : ∃ e,
        (uploadImages f uid
          [(Variant.original, none, f.buffer),
           (Variant.thumbnail, some ⟨⟨some 300, some 300, Fit.cover, false⟩, "jpeg", 85⟩, tb),
           (Variant.medium, some ⟨⟨some 800, none, Fit.inside, true⟩, "jpeg", 85⟩, mb),
           (Variant.large, some ⟨⟨some 1200, none, Fit.inside, true⟩, "jpeg", 85⟩, lb)]
          0).1 = Except.error e := by
      cases ho : f.uploadOk Variant.original <;>
        cases ht : f.uploadOk Variant.thumbnail <;>
        cases hm : f.uploadOk Variant.medium <;>
        cases hl : f.uploadOk Variant.large <;>
        simp_all [uploadImages]
    obtain ⟨e, he⟩ := key
    have hfile : processImageFile f uid = Except.error e := by
      rw [processImageFile, hpi]
      simp [he]
    exact ⟨⟨e, hfile⟩, by simp [processFile, hmime, hfile],
      by simp [processFile, hmime, hfile]⟩

/-- Witness for Claim C2 amended at concrete inputs: the
thumbnail-transform failure, the upload loop stopping at a rejected
`original` upload, and the per-file consequence of that upload
failure. -/
theorem claim_C2_amended_witness :
    processImage [1, 2, 3] ⟨85, "jpeg", none⟩ imgOracleThumbFail =
      (Except.error (PErr.transformFailed Variant.thumbnail), [Variant.thumbnail]) ∧
    uploadImages fImgUploadOrigFail "u1"
        [(Variant.original, none, [1, 2, 3])] 0 =
      (Except.error (PErr.storageFailed "original_photo.jpg"), [Variant.original]) ∧
    (processFile fImgUploadOrigFail "u1").success = false ∧
    (processFile fImgUploadOrigFail "u1").data = none :=
  ⟨(claim_C2_amended [1, 2, 3] ⟨85, "jpeg", none⟩ imgOracleThumbFail).1 rfl,
   (claim_C2_amended [1, 2, 3] ⟨85, "jpeg", none⟩ imgOracleThumbFail).2.2.2.1
     fImgUploadOrigFail "u1" Variant.original none [1, 2, 3] [] 0 rfl,
   ((claim_C2_amended [1, 2, 3] ⟨85, "jpeg", none⟩ imgOracleThumbFail).2.2.2.2
     fImgUploadOrigFail "u1" [10, 11] [20, 21] [30, 31] rfl rfl (Or.inl rfl)).2.1,
   ((claim_C2_amended [1, 2, 3] ⟨85, "jpeg", none⟩ imgOracleThumbFail).2.2.2.2
     fImgUploadOrigFail "u1" [10, 11] [20, 21] [30, 31] rfl rfl (Or.inl rfl)).2.2⟩

/-! ## Claim C4 -/

/-- Claim C4 counterexample: a video file whose transcode and video
upload succeed but whose thumbnail upload fails yields an overall
*failed* outcome, not `success = true` — the video thumbnail is not
best-effort in the code (`processVideoFile` awaits the thumbnail
upload with no catch, lines 437-444). -/
theorem claim_C4_counterexample :
    fVidThumbUploadFail.vidOracle = ⟨true, some "00:00:10.00", true, false⟩ ∧
    (processFile fVidThumbUploadFail "u1").success = false ∧
    (processVideoFile fVidThumbUploadFail "u1").1 =
      Except.error (PErr.storageFailed "thumbnail_clip2.mp4") :=
  ⟨rfl, rfl, rfl⟩

/-- Claim C4 amended: for every video asset whose transcode succeeds,
a video-thumbnail upload failure makes the whole file fail — the
thumbnail is effectively required. -/
theorem claim_C4_amended (f : FileReq) (uid : String)
    (h1 : isImage f.mimetype = false) (h2 : isVideo f.mimetype = true)
    (h3 : f.vidOracle.transcodeOk = true) (h4 : f.vidOracle.uploadVideoOk = true)
    (h5 : f.vidOracle.uploadThumbOk = false) :
    (processVideoFile f uid).1 =
      Except.error (PErr.storageFailed ("thumbnail_" ++ f.originalname)) ∧
    (processFile f uid).success = false := by
  have hv : (processVideoFile f uid).1 =
      Except.error (PErr.storageFailed ("thumbnail_" ++ f.originalname)) := by
    simp [processVideoFile, processVideo, h3, h4, h5]
  refine ⟨hv, ?_⟩
  simp [processFile, h1, h2, hv]

/-- Witness for Claim C4 amended at a concrete input. -/
theorem claim_C4_amended_witness :
    (processFile fVidThumbUploadFail "u1").success = false :=
  (claim_C4_amended fVidThumbUploadFail "u1" rfl rfl rfl rfl rfl).2

/-! ## Claim C5 -/

/-- Claim C5: for every image profile (any quality, format, and resize
override), a successful `processImage` produces exactly the derivatives
original, thumbnail, medium, large in that fixed order, and the
thumbnail transform is always a 300×300 cover-fit crop — the statement's
right-hand sides do not depend on `opts.format` or `opts.resize`. -/
theorem claim_C5_image_plan (b : Bytes) (opts : ImageOpts) (orc : ImageOracle)
    (res : List (Variant × Option SharpCall × Bytes)) (tr : List Variant)
    (h : processImage b opts orc = (Except.ok res, tr)) :
    res.map (fun e => e.1) =
      [Variant.original, Variant.thumbnail, Variant.medium, Variant.large] ∧
    res.map (fun e => e.2.1) =
      [none,
       some ⟨⟨some 300, some 300, Fit.cover, false⟩, "jpeg", opts.quality⟩,
       some ⟨⟨some 800, none, Fit.inside, true⟩, "jpeg", opts.quality⟩,
       some ⟨⟨some 1200, none, Fit.inside, true⟩, "jpeg", opts.quality⟩] := by
  obtain ⟨tb, mb, lb, -, -, -, rfl⟩ := processImage_ok_eq b opts orc res tr h
  exact ⟨rfl, rfl⟩

/-- Witness for Claim C5 at a concrete profile and environment. -/
theorem claim_C5_witness :
    imgResOk.map (fun e => e.1) =
      [Variant.original, Variant.thumbnail, Variant.medium, Variant.large] ∧
    imgResOk.map (fun e => e.2.1) =
      [none,
       some ⟨⟨some 300, some 300, Fit.cover, false⟩, "jpeg", 85⟩,
       some ⟨⟨some 800, none, Fit.inside, true⟩, "jpeg", 85⟩,
       some ⟨⟨some 1200, none, Fit.inside, true⟩, "jpeg", 85⟩] :=
  claim_C5_image_plan [1, 2, 3] ⟨85, "jpeg", none⟩ imgOracleAllOk imgResOk
    [Variant.thumbnail, Variant.medium, Variant.large] rfl

/-! ## Claim C8 -/

/-- Claim C8: the bytes of the `original` derivative are exactly the
input bytes — `processImage` stores the raw buffer pass-through as the
first entry of its results, for every buffer, profile and environment. -/
theorem claim_C8_original_passthrough (b : Bytes) (opts : ImageOpts) (orc : ImageOracle)
    (res : List (Variant × Option SharpCall × Bytes)) (tr : List Variant)
    (h : processImage b opts orc = (Except.ok res, tr)) :
    res.head? = some (Variant.original, none, b) := by
  obtain ⟨tb, mb, lb, -, -, -, rfl⟩ := processImage_ok_eq b opts orc res tr h
  rfl

/-- Witness for Claim C8 at a concrete input. -/
theorem claim_C8_witness :
    imgResOk.head? = some (Variant.original, none, ([1, 2, 3] : Bytes)) :=
  claim_C8_original_passthrough [1, 2, 3] ⟨85, "jpeg", none⟩ imgOracleAllOk imgResOk
    [Variant.thumbnail, Variant.medium, Variant.large] rfl

/-! ## Claim C6 -/

/-- Claim C6 counterexample: for a filename with no dot, `generateKey`
does not fall back to an "unknown" extension token — `split('.').pop()`
returns the whole filename, which becomes the key's extension. -/
theorem claim_C6_counterexample :
    extOf "noext".data = "noext".data ∧
    generateKey "processed".data "7".data "noext".data 123 "abc123xyz".data =
      "processed/user-7/123-abc123xyz.noext".data ∧
    List.isSuffixOf ('.' :: "unknown".data)
      (generateKey "processed".data "7".data "noext".data 123 "abc123xyz".data) = false := by
  refine ⟨by decide, by decide, by decide⟩

/-- Claim C6 amended: key generation never errors; the generated key
always ends with a dot followed by the filename's final dot-separated
segment, and for a filename with no dot that segment is the whole
filename (not an "unknown" token). -/
theorem claim_C6_amended (ktype userId filename : List Char) (ts : Nat)
    (rand : List Char) :
    (('.' :: extOf filename) <:+ generateKey ktype userId filename ts rand) ∧
    ('.' ∉ filename → extOf filename = filename) := by
  constructor
  · simp only [generateKey]
    repeat' split
    all_goals
      first
        | exact suffix_append_right _ _ _
            (suffix_cons_right _ _ _ (List.suffix_append _ _))
        | exact suffix_append_right _ _ _ (List.suffix_append _ _)
  · intro hnd
    unfold extOf
    rw [splitOnDot_no_dot filename hnd]
    rfl

/-- Witness for Claim C6 amended at concrete inputs. -/
theorem claim_C6_amended_witness :
    (('.' :: extOf "photo.jpg".data) <:+
      generateKey "processed".data "7".data "photo.jpg".data 5 "r".data) ∧
    extOf "noext".data = "noext".data :=
  ⟨(claim_C6_amended "processed".data "7".data "photo.jpg".data 5 "r".data).1,
   (claim_C6_amended "processed".data "7".data "noext".data 5 "r".data).2 (by decide)⟩

/-! ## Claim C10 -/

/-- Claim C10: the generated storage key depends on the filename only
through its final dot-separated segment — two filenames with the same
extension and identical kind, owner, timestamp and random disambiguator
produce identical keys, so the base name is never embedded. -/
theorem claim_C10_key_ext_only (ktype userId : List Char) (ts : Nat)
    (rand f1 f2 : List Char) (h : extOf f1 = extOf f2) :
    generateKey ktype userId f1 ts rand = generateKey ktype userId f2 ts rand := by
  simp only [generateKey, h]

/-- Witness for Claim C10 at concrete filenames sharing only the
extension. -/
theorem claim_C10_witness :
    generateKey "processed".data "7".data "photo.jpg".data 5 "r".data =
      generateKey "processed".data "7".data "archive.jpg".data 5 "r".data :=
  claim_C10_key_ext_only "processed".data "7".data 5 "r".data
    "photo.jpg".data "archive.jpg".data (by decide)

/-! ## Claim C3 -/

/-- Claim C3: a batch of N files yields exactly one outcome per file in
submission order (`results[i]` is the processing of `files[i]`), with
`total = N` and `successful + failed = total`; an unsupported-MIME file
contributes a failed outcome, and every file's outcome equals what a
batch of just that file produces (so the other files of a batch are
unaffected by one unsupported sibling). -/
theorem claim_C3_batch (files : List FileReq) (uid : String) :
    (batchProcess files uid).total = files.length ∧
    (batchProcess files uid).results.length = files.length ∧
    (batchProcess files uid).successful + (batchProcess files uid).failed =
      (batchProcess files uid).total ∧
    (∀ i : Nat, (batchProcess files uid).results[i]? =
      (files[i]?).map (fun f => processFile f uid)) ∧
    (∀ f : FileReq, (batchProcess [f] uid).results = [processFile f uid]) ∧
    (∀ f : FileReq, isImage f.mimetype = false → isVideo f.mimetype = false →
      (processFile f uid).success = false) := by
  refine ⟨rfl, by simp [batchProcess], ?_, ?_, fun f => rfl, ?_⟩
  · have := length_filter_add_length_filter_not (fun r => r.success)
      (files.map (fun f => processFile f uid))
    simpa [batchProcess] using this
  · intro i
    simp [batchProcess]
  · intro f h1 h2
    simp [processFile, h1, h2]

/-- Witness for Claim C3 at concrete batches. -/
theorem claim_C3_batch_witness :
    (processFile fBadMime "u1").success = false ∧
    (batchProcess [fImgOk] "u1").results = [processFile fImgOk "u1"] :=
  ⟨(claim_C3_batch [fBadMime] "u1").2.2.2.2.2 fBadMime (by decide) (by decide),
   (claim_C3_batch [fImgOk] "u1").2.2.2.2.1 fImgOk⟩

/-! ## Claim C9 -/

/-- Claim C9: the batch path ignores any caller-supplied profile — the
endpoint's output is independent of the request body — and processes
every file with fixed defaults: images with quality 85, jpeg encoding
and no resize override (the derivative plan of any image outcome is
exactly the default plan), and videos with the medium preset, mp4
output and the thumbnail always requested. -/
theorem claim_C9_batch_defaults (files : List FileReq) (uid : String)
    (p1 p2 : CallerProfile) :
    batchEndpoint files uid p1 = batchEndpoint files uid p2 ∧
    (∀ f d, (processFile f uid).data = some (FOData.image d) →
      d.derivs.map (fun e => (e.1, e.2.1)) =
        [(Variant.original, none),
         (Variant.thumbnail, some ⟨⟨some 300, some 300, Fit.cover, false⟩, "jpeg", 85⟩),
         (Variant.medium, some ⟨⟨some 800, none, Fit.inside, true⟩, "jpeg", 85⟩),
         (Variant.large, some ⟨⟨some 1200, none, Fit.inside, true⟩, "jpeg", 85⟩)]) ∧
    (∀ f d, (processFile f uid).data = some (FOData.video d) →
      d.spec = ⟨"libx264", "1000k", "aac", "128k"⟩ ∧ d.outFormat = "mp4" ∧
      d.thumbRequested = true) := by
  refine ⟨rfl, ?_, ?_⟩
  · intro f d hd
    unfold processFile at hd
    cases h1 : isImage f.mimetype <;> rw [h1] at hd
    · cases h2 : isVideo f.mimetype <;> rw [h2] at hd
      · simp at hd
      · simp only [if_true, Bool.true_eq_false] at hd
        rcases hv : (processVideoFile f uid).1 with e | dv <;> rw [hv] at hd <;>
          simp at hd
    · simp only [if_true] at hd
      rcases hi : processImageFile f uid with e | dd <;> rw [hi] at hd <;> simp at hd
      obtain ⟨tb, mb, lb, ups, rfl⟩ := processImageFile_ok_derivs f uid dd hi
      rw [← hd]
      rfl
  · intro f d hd
    unfold processFile at hd
    cases h1 : isImage f.mimetype <;> rw [h1] at hd
    · cases h2 : isVideo f.mimetype <;> rw [h2] at hd
      · simp at hd
      · simp only [if_true, Bool.true_eq_false] at hd
        rcases hv : (processVideoFile f uid).1 with e | dv <;> rw [hv] at hd <;>
          simp at hd
        obtain ⟨hs, ho, ht⟩ := processVideoFile_ok_fields f uid dv hv
        rw [← hd]
        exact ⟨hs.trans presetSpec_medium, ho, ht⟩
    · simp only [if_true] at hd
      rcases hi : processImageFile f uid with e | dd <;> rw [hi] at hd <;> simp at hd

/-- Witness for Claim C9 at a concrete batch video file. -/
theorem claim_C9_witness :
    fVidOkData.spec = ⟨"libx264", "1000k", "aac", "128k"⟩ ∧
    fVidOkData.outFormat = "mp4" ∧ fVidOkData.thumbRequested = true :=
  (claim_C9_batch_defaults [fVidOk] "u1" profileA profileB).2.2 fVidOk fVidOkData
    (by decide)

/-! ## Claim C7 -/

/-- Claim C7 counterexample: the `codecData` metadata string
`00:01:30.50` denotes a duration of 90.5 seconds, but the worker stores
`parseFloat` of it (line 358) and therefore reports duration 0 — not
the value the transform library surfaced. -/
theorem claim_C7_counterexample :
    clockChars 0 1 30 50 = "00:01:30.50".data ∧
    clockVal 0 1 30 50 = 181 / 2 ∧
    (processVideo ⟨true, some "00:01:30.50", true, true⟩ batchVideoOpts).map
      (fun o => o.duration) = Except.ok (some 0) ∧
    (0 : ℚ) ≠ 181 / 2 := by
  refine ⟨by decide, ?_, by rfl, by norm_num⟩
  norm_num [clockVal]

/-- Claim C7 amended: the duration the worker reports is `parseFloat`
of the metadata string the transform surfaces, which for a clock-format
duration string `HH:MM:SS.cc` is only the leading hours field, not the
surfaced duration value. -/
theorem claim_C7_amended (orc : VideoOracle) (opts : VideoOpts) (out : VideoOut)
    (hh mm ss cc : Nat) (h1 : hh < 100)
    (ho : processVideo orc opts = Except.ok out)
    (hd : orc.codecDuration = some (String.mk (clockChars hh mm ss cc))) :
    out.duration = some (hh : ℚ) := by
  have hpf : jsParseFloat (clockChars hh mm ss cc) = some (hh : ℚ) :=
    jsParseFloat_twoDigit_colon hh h1
      (pad2 mm ++ (':' :: (pad2 ss ++ ('.' :: pad2 cc))))
  unfold processVideo at ho
  cases htr : orc.transcodeOk <;> rw [htr] at ho
  · simp at ho
  · simp only [if_true] at ho
    injection ho with ho
    rw [← ho]
    show orc.codecDuration.bind (fun s => jsParseFloat s.data) = some (hh : ℚ)
    rw [hd]
    exact hpf

/-- Witness for Claim C7 amended at the concrete surfaced string
`02:03:04.05`. -/
theorem claim_C7_amended_witness : vidOutClock.duration = some (2 : ℚ) :=
  claim_C7_amended vidOracleClock batchVideoOpts vidOutClock 2 3 4 5
    (by decide) rfl rfl

end MediaProcessor
